import Mathlib

/-!
Verification of the pending-action reconciliation algorithm of the gossip
repository (`calc` in `src/gossip-bin/src/ui/notifications/mod.rs`) and of the
global-state-registry initialization (`GLOBALS` in `src/src/globals.rs`),
as a shallow embedding in Lean 4.
-/

/-- Modelled from the spec: the `PendingItem` tagged union lives in the
external `gossip_lib` crate (only its match patterns appear in
`src/gossip-bin/src/ui/notifications/mod.rs`).  Variants and fields follow
spec section 3 and the patterns in `calc`: `RelayConnectionRequest` carries a
relay identity and a job context, `RelayAuthenticationRequest` an account and
relay identity, `Nip46Request` (the spec's RemoteSignRequest) a client name,
account and command.  `other` stands for every remaining variant, which
`calc` handles through its catch-all arm (the spec's GenericPendingItem). -/
inductive PendingItem where
  | RelayConnectionRequest (relay : String) (jobs : List Nat)
  | RelayAuthenticationRequest (account : String) (relay : String)
  | Nip46Request (client_name : String) (account : String) (command : String)
  | other (payload : Nat)
deriving DecidableEq, Repr

/-- Embeds `NotificationFilter` from `src/gossip-bin/src/ui/notifications/mod.rs`. -/
inductive NotificationFilter where
  | All
  | RelayAuthenticationRequest
  | RelayConnectionRequest
  | Nip46Request
  | PendingItem
deriving DecidableEq, Repr

/-- Embeds the concrete notification objects (`AuthRequest`, `ConnRequest`,
`Nip46Request`, `Pending`) uniformly: each is an
`Rc<RefCell<dyn Notification>>` storing the wrapped `PendingItem`, its arrival
time and the user's `remember` flag.  `borrowOk` models the runtime borrow
state of the `RefCell`: `calc` inspects previous-pass entries through
`try_borrow()`, whose `Err(_)` branch is skipped, so an entry with
`borrowOk = false` is one whose borrow attempt fails during the pass. -/
structure NotificationEntry where
  item : PendingItem
  time : Nat
  remember : Bool
  borrowOk : Bool
deriving DecidableEq, Repr

/-- Embeds `NotificationData` from `src/gossip-bin/src/ui/notifications/mod.rs`. -/
structure NotificationData where
  active : List NotificationEntry
  last_pending_hash : Nat
  num_notif_relays : Nat
  num_notif_pending : Nat
  filter : NotificationFilter
deriving DecidableEq, Repr

/-- Embeds `NotificationData::new`. -/
def NotificationData.new : NotificationData :=
  { active := []
    last_pending_hash := 0
    num_notif_relays := 0
    num_notif_pending := 0
    filter := NotificationFilter.All }

/-- Modelled from the spec: `ConnRequest::new` (file `conn_request.rs`, not in
the sources) wraps the cloned item and its arrival time in a fresh cell; the
spec says `remember` defaults to false for a fresh entry, and a freshly
created cell is borrowable. -/
def ConnRequest.new (item : PendingItem) (time : Nat) : NotificationEntry :=
  { item := item, time := time, remember := false, borrowOk := true }

/-- Modelled from the spec: `AuthRequest::new` (file `auth_request.rs`, not in
the sources); fresh entry with `remember = false`. -/
def AuthRequest.new (item : PendingItem) (time : Nat) : NotificationEntry :=
  { item := item, time := time, remember := false, borrowOk := true }

/-- Modelled from the spec: `Nip46Request::new` (file `nip46_request.rs`, not
in the sources); fresh entry with `remember = false`. -/
def Nip46Request.new (item : PendingItem) (time : Nat) : NotificationEntry :=
  { item := item, time := time, remember := false, borrowOk := true }

/-- Modelled from the spec: `Pending::new` (file `pending.rs`, not in the
sources); fresh entry with `remember = false`. -/
def Pending.new (item : PendingItem) (time : Nat) : NotificationEntry :=
  { item := item, time := time, remember := false, borrowOk := true }

/-- Modelled from the spec: the Pending Source (`GLOBALS.pending`, external
collaborator per spec section 2) exposes a content fingerprint `hash()` and a
snapshot `read()` of all `(PendingItem, arrival_time)` entries in arrival
order; both are represented here as data. -/
structure PendingSource where
  hash : Nat
  items : List (PendingItem × Nat)
deriving DecidableEq, Repr

/-- Embeds the first inner loop of `calc`
(`src/gossip-bin/src/ui/notifications/mod.rs` lines 99 to 112): for a new
`RelayConnectionRequest` entry, scan the whole previous `active` list; for
every previous entry whose `try_borrow` succeeds and which is a
`RelayConnectionRequest` on the same relay, copy its `remember` value into the
new entry. -/
def copyRememberConn (relay : String) (oldActive : List NotificationEntry)
    (newEntry : NotificationEntry) : NotificationEntry :=
  oldActive.foldl (fun acc entry =>
    if entry.borrowOk then
      match entry.item with
      | PendingItem.RelayConnectionRequest old_relay _ =>
          if old_relay = relay then { acc with remember := entry.remember } else acc
      | _ => acc
    else acc) newEntry

/-- Embeds the second inner loop of `calc` (lines 121 to 134): same scan for a
new `RelayAuthenticationRequest` entry, matching on account and relay. -/
def copyRememberAuth (account relay : String) (oldActive : List NotificationEntry)
    (newEntry : NotificationEntry) : NotificationEntry :=
  oldActive.foldl (fun acc entry =>
    if entry.borrowOk then
      match entry.item with
      | PendingItem.RelayAuthenticationRequest old_account old_relay =>
          if old_account = account ∧ old_relay = relay then
            { acc with remember := entry.remember }
          else acc
      | _ => acc
    else acc) newEntry

/-- Builds the notification entry `calc` pushes onto `new_active` for one
snapshot entry: keyed variants get a fresh entry run through the
remember-copying scan, `Nip46Request` and the catch-all arm get a fresh entry
with no scan. -/
def buildNotification (oldActive : List NotificationEntry) (item : PendingItem)
    (time : Nat) : NotificationEntry :=
  match item with
  | PendingItem.RelayConnectionRequest relay _ =>
      copyRememberConn relay oldActive (ConnRequest.new item time)
  | PendingItem.RelayAuthenticationRequest account relay =>
      copyRememberAuth account relay oldActive (AuthRequest.new item time)
  | PendingItem.Nip46Request _ _ _ => Nip46Request.new item time
  | _ => Pending.new item time

/-- True for the variants `calc` counts in `num_notif_relays`
(`RelayConnectionRequest` and `RelayAuthenticationRequest`); the other arms
count in `num_notif_pending`. -/
def inCategoryRelays : PendingItem → Bool
  | PendingItem.RelayConnectionRequest _ _ => true
  | PendingItem.RelayAuthenticationRequest _ _ => true
  | _ => false

/-- True for the variants that define an identity key (spec section 3):
exactly the two relay variants. -/
def isKeyed : PendingItem → Bool
  | PendingItem.RelayConnectionRequest _ _ => true
  | PendingItem.RelayAuthenticationRequest _ _ => true
  | _ => false

/-- The identity-key match used by the remember-copying scans of `calc`:
first argument the new item, second a previous entry's item.
`RelayConnectionRequest` matches on the relay alone (line 105),
`RelayAuthenticationRequest` on account and relay (line 127); no other pair
matches. -/
def identityMatches : PendingItem → PendingItem → Bool
  | PendingItem.RelayConnectionRequest relay _,
    PendingItem.RelayConnectionRequest old_relay _ => decide (old_relay = relay)
  | PendingItem.RelayAuthenticationRequest account relay,
    PendingItem.RelayAuthenticationRequest old_account old_relay =>
      decide (old_account = account) && decide (old_relay = relay)
  | _, _ => false

/-- Embeds the body of the `for (item, time) in GLOBALS.pending.read().iter()`
loop of `calc` (lines 92 to 151): returns the `new_active` list in push order
together with the final `num_notif_relays` and `num_notif_pending` counters
(reset to zero before the loop, incremented once per entry). -/
def calcLoop (oldActive : List NotificationEntry) :
    List (PendingItem × Nat) → List NotificationEntry × Nat × Nat
  | [] => ([], 0, 0)
  | (item, time) :: rest =>
      let r := calcLoop oldActive rest
      (buildNotification oldActive item time :: r.1,
       if inCategoryRelays item then r.2.1 + 1 else r.2.1,
       if inCategoryRelays item then r.2.2 else r.2.2 + 1)

/-- Embeds `calc` from `src/gossip-bin/src/ui/notifications/mod.rs` (lines 83
to 156; `calc` is a Lean keyword, hence the longer name).  If the Pending
Source's hash differs from `last_pending_hash`, reset both counters, rebuild
the whole entry list from the snapshot, and store the new list and hash;
otherwise return the state untouched. -/
def calcNotifications (data : NotificationData) (src : PendingSource) :
    NotificationData :=
  if data.last_pending_hash ≠ src.hash then
    let r := calcLoop data.active src.items
    { data with
      num_notif_relays := r.2.1
      num_notif_pending := r.2.2
      active := r.1
      last_pending_hash := src.hash }
  else
    data

/-- Handle for the LMDB storage subsystem; its construction (`Storage::new`,
not in the sources) is external and represented by an `Except` input to the
initializer. -/
structure Storage where
  handle : Nat
deriving DecidableEq, Repr

/-- Handle for the SQLite connection; its construction
(`crate::db::init_database`, not in the sources) is external and represented
by an `Except` input to the initializer. -/
structure DbConnection where
  handle : Nat
deriving DecidableEq, Repr

/-- Embeds the `Globals` struct of `src/src/globals.rs` restricted to the
fields whose initial values are written literally in the `lazy_static!`
block; the remaining fields (channels, people, feed, locks, and so on) are
infallible constructions of external-crate types and carry no data relevant
to the initialization claims. -/
structure Globals where
  first_run : Bool
  db : DbConnection
  shutting_down : Bool
  pixels_per_point_times_100 : Nat
  bytes_read : Nat
  storage : Storage
deriving DecidableEq, Repr

/-- Embeds the initializer body of the `lazy_static!` block of
`src/src/globals.rs` (lines 121 to 167): `Storage::new()` is matched first
and a failure panics (modelled as `Except.error`, terminating with no value);
then the struct literal is built, whose `db` field calls
`init_database().expect(..)` (a failure again panics before any `Globals`
value exists).  Only when both succeed is a fully built `Globals` returned. -/
def globalsInit (storageRes : Except String Storage)
    (dbRes : Except String DbConnection) : Except String Globals :=
  match storageRes with
  | Except.error e => Except.error e
  | Except.ok storage =>
    match dbRes with
    | Except.error e => Except.error e
    | Except.ok db =>
        Except.ok
          { first_run := false
            db := db
            shutting_down := false
            pixels_per_point_times_100 := 139
            bytes_read := 0
            storage := storage }

/-- Modelled from the spec: `lazy_static!` semantics (the macro is an
external crate; the spec says the registry is initialized exactly once at
process start and lives behind an immutable handle).  The cell holds the
published value: a first forcing runs `globalsInit` and publishes the value
only on success; once a value is published, every later forcing returns it
without running the initializer again. -/
def lazyForceGlobals (cell : Option Globals) (storageRes : Except String Storage)
    (dbRes : Except String DbConnection) : Except String Globals × Option Globals :=
  match cell with
  | some g => (Except.ok g, some g)
  | none =>
    match globalsInit storageRes dbRes with
    | Except.ok g => (Except.ok g, some g)
    | Except.error e => (Except.error e, none)

/-- The identity match performed by the first inner loop of `calc`, as a
Boolean predicate on the previous entry's item: a `RelayConnectionRequest` on
the same relay. -/
def connMatches (relay : String) : PendingItem → Bool
  | PendingItem.RelayConnectionRequest old_relay _ => decide (old_relay = relay)
  | _ => false

/-- The identity match performed by the second inner loop of `calc`: a
`RelayAuthenticationRequest` on the same account and relay. -/
def authMatches (account relay : String) : PendingItem → Bool
  | PendingItem.RelayAuthenticationRequest old_account old_relay =>
      decide (old_account = account) && decide (old_relay = relay)
  | _ => false

/-- A concrete `RelayAuthenticationRequest` item, identity `(a, r)`, used when
evaluating the reconciler on explicit inputs. -/
def authItemAR : PendingItem := PendingItem.RelayAuthenticationRequest "a" "r"

/-- A concrete `Nip46Request` item used when evaluating the reconciler on
explicit inputs. -/
def nipItem : PendingItem := PendingItem.Nip46Request "c" "a" "sign"

/-- A previous-pass state whose list holds two borrowable
`RelayAuthenticationRequest` entries of the same identity `(a, r)`: the first
with `remember = true`, the second with `remember = false`. -/
def twoMatchData : NotificationData :=
  { active :=
      [{ item := authItemAR, time := 1, remember := true, borrowOk := true },
       { item := authItemAR, time := 2, remember := false, borrowOk := true }]
    last_pending_hash := 1
    num_notif_relays := 2
    num_notif_pending := 0
    filter := NotificationFilter.All }

/-- A previous-pass state whose list holds a borrowable matching entry with
`remember = true` followed by a matching entry with `remember = false` whose
borrow fails. -/
def lockedLastData : NotificationData :=
  { active :=
      [{ item := authItemAR, time := 1, remember := true, borrowOk := true },
       { item := authItemAR, time := 2, remember := false, borrowOk := false }]
    last_pending_hash := 1
    num_notif_relays := 2
    num_notif_pending := 0
    filter := NotificationFilter.All }

/-- A Pending Source whose snapshot holds one `RelayAuthenticationRequest`
item of identity `(a, r)` and whose fingerprint is 2. -/
def oneAuthSrc : PendingSource := { hash := 2, items := [(authItemAR, 3)] }

theorem identityMatches_conn (relay : String) (jobs : List Nat) (p : PendingItem) :
    identityMatches (PendingItem.RelayConnectionRequest relay jobs) p =
      connMatches relay p := by
  cases p <;> rfl

theorem identityMatches_auth (account relay : String) (p : PendingItem) :
    identityMatches (PendingItem.RelayAuthenticationRequest account relay) p =
      authMatches account relay p := by
  cases p <;> rfl

/-- A left fold that overwrites `remember` at every entry satisfying `P`
computes the `remember` of the last entry satisfying `P` (default: the
accumulator's), leaving all other fields alone. -/
theorem foldl_copyRemember (P : NotificationEntry → Bool)
    (old : List NotificationEntry) (acc : NotificationEntry) :
    old.foldl (fun a e => if P e then { a with remember := e.remember } else a) acc =
      { acc with remember :=
          (((old.filter P).getLast?).map NotificationEntry.remember).getD acc.remember } := by
  induction old using List.reverseRecOn with
  | nil => simp
  | append_singleton old e ih =>
      rw [List.foldl_append, List.foldl_cons, List.foldl_nil, ih]
      by_cases h : P e = true <;>
        simp [List.filter_append, h]

theorem copyRememberConn_eq (relay : String) (old : List NotificationEntry)
    (ne : NotificationEntry) :
    copyRememberConn relay old ne =
      { ne with remember :=
          (((old.filter fun e => e.borrowOk && connMatches relay e.item).getLast?).map
            NotificationEntry.remember).getD ne.remember } := by
  have hstep : (fun (acc entry : NotificationEntry) =>
      if entry.borrowOk then
        match entry.item with
        | PendingItem.RelayConnectionRequest old_relay _ =>
            if old_relay = relay then { acc with remember := entry.remember } else acc
        | _ => acc
      else acc) =
      (fun (acc e : NotificationEntry) =>
        if e.borrowOk && connMatches relay e.item then
          { acc with remember := e.remember }
        else acc) := by
    funext acc e
    obtain ⟨i, t, r, b⟩ := e
    cases b <;> cases i <;> simp [connMatches]
  rw [copyRememberConn, hstep, foldl_copyRemember]

theorem copyRememberAuth_eq (account relay : String) (old : List NotificationEntry)
    (ne : NotificationEntry) :
    copyRememberAuth account relay old ne =
      { ne with remember :=
          (((old.filter fun e => e.borrowOk && authMatches account relay e.item).getLast?).map
            NotificationEntry.remember).getD ne.remember } := by
  have hstep : (fun (acc entry : NotificationEntry) =>
      if entry.borrowOk then
        match entry.item with
        | PendingItem.RelayAuthenticationRequest old_account old_relay =>
            if old_account = account ∧ old_relay = relay then
              { acc with remember := entry.remember }
            else acc
        | _ => acc
      else acc) =
      (fun (acc e : NotificationEntry) =>
        if e.borrowOk && authMatches account relay e.item then
          { acc with remember := e.remember }
        else acc) := by
    funext acc e
    obtain ⟨i, t, r, b⟩ := e
    cases b <;> cases i <;> simp [authMatches, Bool.decide_and]
  rw [copyRememberAuth, hstep, foldl_copyRemember]

theorem buildNotification_keyed (old : List NotificationEntry) (item : PendingItem)
    (time : Nat) (h : isKeyed item = true) :
    buildNotification old item time =
      { item := item, time := time, borrowOk := true,
        remember :=
          (((old.filter fun e => e.borrowOk && identityMatches item e.item).getLast?).map
            NotificationEntry.remember).getD false } := by
  cases item with
  | RelayConnectionRequest relay jobs =>
      rw [buildNotification, copyRememberConn_eq]
      simp only [identityMatches_conn, ConnRequest.new]
  | RelayAuthenticationRequest account relay =>
      rw [buildNotification, copyRememberAuth_eq]
      simp only [identityMatches_auth, AuthRequest.new]
  | Nip46Request c a m => simp [isKeyed] at h
  | other p => simp [isKeyed] at h

theorem buildNotification_nonkeyed (old : List NotificationEntry)
    (item : PendingItem) (time : Nat) (h : isKeyed item = false) :
    buildNotification old item time =
      { item := item, time := time, remember := false, borrowOk := true } := by
  cases item with
  | RelayConnectionRequest relay jobs => simp [isKeyed] at h
  | RelayAuthenticationRequest account relay => simp [isKeyed] at h
  | Nip46Request c a m => rfl
  | other p => rfl

theorem buildNotification_item (old : List NotificationEntry) (item : PendingItem)
    (time : Nat) : (buildNotification old item time).item = item := by
  by_cases h : isKeyed item = true
  · rw [buildNotification_keyed old item time h]
  · rw [buildNotification_nonkeyed old item time (by simpa using h)]

theorem buildNotification_time (old : List NotificationEntry) (item : PendingItem)
    (time : Nat) : (buildNotification old item time).time = time := by
  by_cases h : isKeyed item = true
  · rw [buildNotification_keyed old item time h]
  · rw [buildNotification_nonkeyed old item time (by simpa using h)]

theorem calcLoop_fst (old : List NotificationEntry)
    (items : List (PendingItem × Nat)) :
    (calcLoop old items).1 = items.map fun p => buildNotification old p.1 p.2 := by
  induction items with
  | nil => rfl
  | cons p rest ih =>
      obtain ⟨item, time⟩ := p
      simp [calcLoop, ih]

theorem calcLoop_counts (old : List NotificationEntry)
    (items : List (PendingItem × Nat)) :
    (calcLoop old items).2.1 = (items.filter fun p => inCategoryRelays p.1).length ∧
      (calcLoop old items).2.2 = (items.filter fun p => !inCategoryRelays p.1).length := by
  induction items with
  | nil => exact ⟨rfl, rfl⟩
  | cons p rest ih =>
      obtain ⟨item, time⟩ := p
      by_cases h : inCategoryRelays item = true <;>
        simp [calcLoop, ih.1, ih.2, List.filter_cons, h]

theorem calcNotifications_skip (d : NotificationData) (s : PendingSource)
    (h : d.last_pending_hash = s.hash) : calcNotifications d s = d := by
  simp [calcNotifications, h]

theorem calcNotifications_run (d : NotificationData) (s : PendingSource)
    (h : d.last_pending_hash ≠ s.hash) :
    calcNotifications d s =
      { d with
        num_notif_relays := (s.items.filter fun p => inCategoryRelays p.1).length
        num_notif_pending := (s.items.filter fun p => !inCategoryRelays p.1).length
        active := s.items.map fun p => buildNotification d.active p.1 p.2
        last_pending_hash := s.hash } := by
  rw [calcNotifications, if_pos h]
  show ({ d with
      num_notif_relays := (calcLoop d.active s.items).2.1
      num_notif_pending := (calcLoop d.active s.items).2.2
      active := (calcLoop d.active s.items).1
      last_pending_hash := s.hash } : NotificationData) = _
  rw [calcLoop_fst, (calcLoop_counts d.active s.items).1,
    (calcLoop_counts d.active s.items).2]

theorem calcNotifications_hash (d : NotificationData) (s : PendingSource) :
    (calcNotifications d s).last_pending_hash = s.hash := by
  by_cases h : d.last_pending_hash = s.hash
  · rw [calcNotifications_skip d s h, h]
  · rw [calcNotifications_run d s h]

theorem buildNotification_filter_borrowOk (old : List NotificationEntry)
    (item : PendingItem) (t : Nat) :
    buildNotification (old.filter fun e => e.borrowOk) item t =
      buildNotification old item t := by
  by_cases hk : isKeyed item = true
  · rw [buildNotification_keyed _ item t hk, buildNotification_keyed _ item t hk]
    have hfil : ((old.filter fun e => e.borrowOk).filter
          fun e => e.borrowOk && identityMatches item e.item) =
        old.filter fun e => e.borrowOk && identityMatches item e.item := by
      rw [List.filter_filter]
      refine List.filter_congr fun e _ => ?_
      cases hb : e.borrowOk <;> simp [hb]
    rw [hfil]
  · rw [buildNotification_nonkeyed _ item t (by simpa using hk),
      buildNotification_nonkeyed _ item t (by simpa using hk)]

theorem buildNotification_remember_locked (old : List NotificationEntry)
    (item : PendingItem) (t : Nat) (h : ∀ e ∈ old, e.borrowOk = false) :
    (buildNotification old item t).remember = false := by
  by_cases hk : isKeyed item = true
  · rw [buildNotification_keyed _ item t hk]
    have hfil : (old.filter fun e => e.borrowOk && identityMatches item e.item) = [] :=
      List.filter_eq_nil_iff.mpr fun e he => by simp [h e he]
    simp [hfil]
  · rw [buildNotification_nonkeyed _ item t (by simpa using hk)]

/-- C2: for every state of the Pending Source, if the reconciler is invoked
and the source's current fingerprint equals the fingerprint recorded from the
previous pass, the call returns the state unchanged (Notification list, both
counters and recorded fingerprint untouched, nothing rebuilt); consequently a
second consecutive call with an unchanged source is a no-op producing
identical output. -/
theorem c2_fingerprint_gate (d : NotificationData) (s : PendingSource) :
    (s.hash = d.last_pending_hash → calcNotifications d s = d) ∧
      calcNotifications (calcNotifications d s) s = calcNotifications d s := by
  refine ⟨fun h => calcNotifications_skip d s h.symm, ?_⟩
  exact calcNotifications_skip _ s (calcNotifications_hash d s)

theorem c2_witness :
    calcNotifications
        { active := [], last_pending_hash := 5, num_notif_relays := 0,
          num_notif_pending := 0, filter := NotificationFilter.All }
        { hash := 5, items := [(authItemAR, 1)] } =
      { active := [], last_pending_hash := 5, num_notif_relays := 0,
        num_notif_pending := 0, filter := NotificationFilter.All } :=
  (c2_fingerprint_gate
      { active := [], last_pending_hash := 5, num_notif_relays := 0,
        num_notif_pending := 0, filter := NotificationFilter.All }
      { hash := 5, items := [(authItemAR, 1)] }).1 rfl

/-- C3: for every snapshot processed by a reconciliation pass (fingerprint
changed), `num_notif_relays` equals the number of snapshot entries of the two
relay variants, `num_notif_pending` the number of remaining entries, and the
two counters sum to the snapshot length. -/
theorem c3_count_correct (d : NotificationData) (s : PendingSource)
    (hrun : d.last_pending_hash ≠ s.hash) :
    (calcNotifications d s).num_notif_relays =
        (s.items.filter fun p => inCategoryRelays p.1).length ∧
      (calcNotifications d s).num_notif_pending =
        (s.items.filter fun p => !inCategoryRelays p.1).length ∧
      (calcNotifications d s).num_notif_relays +
          (calcNotifications d s).num_notif_pending = s.items.length := by
  rw [calcNotifications_run d s hrun]
  exact ⟨rfl, rfl,
    (List.length_eq_length_filter_add fun p : PendingItem × Nat => inCategoryRelays p.1).symm⟩

theorem c3_witness :
    (calcNotifications NotificationData.new
          { hash := 7, items := [(authItemAR, 1), (nipItem, 2)] }).num_notif_relays = 1 ∧
      (calcNotifications NotificationData.new
          { hash := 7, items := [(authItemAR, 1), (nipItem, 2)] }).num_notif_pending = 1 ∧
      (calcNotifications NotificationData.new
            { hash := 7, items := [(authItemAR, 1), (nipItem, 2)] }).num_notif_relays +
          (calcNotifications NotificationData.new
            { hash := 7, items := [(authItemAR, 1), (nipItem, 2)] }).num_notif_pending = 2 := by
  have h := c3_count_correct NotificationData.new
    { hash := 7, items := [(authItemAR, 1), (nipItem, 2)] } (by decide)
  exact ⟨by rw [h.1]; decide, by rw [h.2.1]; decide, by rw [h.2.2]; decide⟩

/-- C6: if the Pending Source is empty and its fingerprint differs from the
recorded one, the pass completes (no error is possible: the reconciler is a
total function) and produces an empty Notification list with both counters
zero. -/
theorem c6_empty_source (d : NotificationData) (s : PendingSource)
    (hrun : d.last_pending_hash ≠ s.hash) (hempty : s.items = []) :
    calcNotifications d s =
      { d with
        active := []
        num_notif_relays := 0
        num_notif_pending := 0
        last_pending_hash := s.hash } := by
  rw [calcNotifications_run d s hrun, hempty]
  rfl

theorem c6_witness :
    calcNotifications twoMatchData { hash := 9, items := [] } =
      { twoMatchData with
        active := []
        num_notif_relays := 0
        num_notif_pending := 0
        last_pending_hash := 9 } :=
  c6_empty_source twoMatchData { hash := 9, items := [] } (by decide) rfl

/-- C10: `NotificationData::new` initializes `last_pending_hash` to the
sentinel 0 rather than a never-ran marker, so for any Pending Source whose
fingerprint is 0 the first call performs no pass at all: the list stays empty
and the counters stay 0, exactly as for an unchanged source. -/
theorem c10_zero_sentinel :
    NotificationData.new.last_pending_hash = 0 ∧
      ∀ s : PendingSource, s.hash = 0 →
        calcNotifications NotificationData.new s = NotificationData.new := by
  refine ⟨rfl, fun s h => calcNotifications_skip NotificationData.new s ?_⟩
  rw [h]
  rfl

theorem c10_witness :
    calcNotifications NotificationData.new { hash := 0, items := [(authItemAR, 1)] } =
      NotificationData.new :=
  c10_zero_sentinel.2 { hash := 0, items := [(authItemAR, 1)] } rfl

/-- C8: registry initialization is exactly-once and all-or-nothing: forcing
the lazy cell when storage construction fails, or when the database cannot
open, terminates with that error and publishes no (partial) `Globals` value;
once a value has been published, every later forcing returns that same value
without running the initializer again. -/
theorem c8_init_once_fatal :
    (∀ (e : String) (dbRes : Except String DbConnection),
        lazyForceGlobals none (Except.error e) dbRes = (Except.error e, none)) ∧
      (∀ (st : Storage) (e : String),
        lazyForceGlobals none (Except.ok st) (Except.error e) = (Except.error e, none)) ∧
      (∀ (g : Globals) (storageRes : Except String Storage)
          (dbRes : Except String DbConnection),
        lazyForceGlobals (some g) storageRes dbRes = (Except.ok g, some g)) :=
  ⟨fun _ _ => rfl, fun _ _ => rfl, fun _ _ _ => rfl⟩

/-- C4: for every reconciliation pass and every `Nip46Request` or catch-all
item in the snapshot, the emitted Notification is the freshly constructed
entry with `remember = false`; the right-hand side does not mention the
previous pass's list, so no state is ever copied from a prior entry, even
when two such items have identical fields. -/
theorem c4_fresh_nonkeyed (d : NotificationData) (s : PendingSource)
    (i : Nat) (item : PendingItem) (t : Nat)
    (hrun : d.last_pending_hash ≠ s.hash)
    (hitem : s.items[i]? = some (item, t))
    (hnk : isKeyed item = false) :
    (calcNotifications d s).active[i]? =
      some { item := item, time := t, remember := false, borrowOk := true } := by
  rw [calcNotifications_run d s hrun]
  show (List.map (fun p => buildNotification d.active p.1 p.2) s.items)[i]? = _
  rw [List.getElem?_map, hitem]
  rw [Option.map_some']
  rw [buildNotification_nonkeyed d.active item t hnk]

theorem c4_witness :
    (calcNotifications twoMatchData { hash := 4, items := [(nipItem, 8)] }).active[0]? =
      some { item := nipItem, time := 8, remember := false, borrowOk := true } :=
  c4_fresh_nonkeyed twoMatchData { hash := 4, items := [(nipItem, 8)] } 0 nipItem 8
    (by decide) rfl rfl

/-- C5: for every snapshot processed by a reconciliation pass, the emitted
list has exactly one entry per snapshot entry in the same order (projecting
each entry to its wrapped item and timestamp gives back the snapshot); hence
if the snapshot's arrival times are non-decreasing, so are the emitted
timestamps. -/
theorem c5_order_preserved (d : NotificationData) (s : PendingSource)
    (hrun : d.last_pending_hash ≠ s.hash) :
    (calcNotifications d s).active.map (fun e => (e.item, e.time)) = s.items ∧
      (List.Pairwise (fun a b => a ≤ b) (s.items.map Prod.snd) →
        List.Pairwise (fun a b => a ≤ b)
          ((calcNotifications d s).active.map NotificationEntry.time)) := by
  rw [calcNotifications_run d s hrun]
  have hproj : (List.map (fun p => buildNotification d.active p.1 p.2) s.items).map
      (fun e => (e.item, e.time)) = s.items := by
    rw [List.map_map]
    refine Eq.trans (List.map_eq_map_iff.mpr fun p _ => ?_) (List.map_id s.items)
    simp [Function.comp, buildNotification_item, buildNotification_time]
  refine ⟨hproj, fun hmono => ?_⟩
  have htime : (List.map (fun p => buildNotification d.active p.1 p.2) s.items).map
      NotificationEntry.time = s.items.map Prod.snd := by
    rw [List.map_map]
    exact List.map_eq_map_iff.mpr fun p _ => buildNotification_time d.active p.1 p.2
  rw [htime]
  exact hmono

theorem c5_witness :
    ((calcNotifications twoMatchData
          { hash := 3, items := [(authItemAR, 4), (nipItem, 6)] }).active.map
        (fun e => (e.item, e.time)) = [(authItemAR, 4), (nipItem, 6)]) ∧
      (List.Pairwise (fun a b => a ≤ b) ([(authItemAR, 4), (nipItem, 6)].map Prod.snd) →
        List.Pairwise (fun a b => a ≤ b)
          ((calcNotifications twoMatchData
              { hash := 3, items := [(authItemAR, 4), (nipItem, 6)] }).active.map
            NotificationEntry.time)) :=
  c5_order_preserved twoMatchData
    { hash := 3, items := [(authItemAR, 4), (nipItem, 6)] } (by decide)

/-- C7: during a reconciliation pass, previous-pass entries whose borrow
fails are skipped without retry and have no effect (the pass computes the
same list as if they were absent), and when no previous entry can be
inspected every new entry keeps the default `remember = false`; the pass
always runs to completion since the reconciler is a total function into
`NotificationData`, never an error value. -/
theorem c7_borrow_skip (d : NotificationData) (s : PendingSource)
    (hrun : d.last_pending_hash ≠ s.hash) :
    (calcNotifications d s).active =
        (calcNotifications
          { d with active := d.active.filter fun e => e.borrowOk } s).active ∧
      ((∀ e ∈ d.active, e.borrowOk = false) →
        ∀ ne ∈ (calcNotifications d s).active, ne.remember = false) := by
  rw [calcNotifications_run d s hrun,
    calcNotifications_run { d with active := d.active.filter fun e => e.borrowOk } s hrun]
  constructor
  · exact (List.map_eq_map_iff.mpr fun p _ =>
      (buildNotification_filter_borrowOk d.active p.1 p.2).symm)
  · intro hlocked ne hne
    obtain ⟨p, _, hp⟩ := List.mem_map.mp hne
    rw [← hp]
    exact buildNotification_remember_locked d.active p.1 p.2 hlocked

theorem c7_witness :
    ((calcNotifications lockedLastData oneAuthSrc).active =
        (calcNotifications
          { lockedLastData with
            active := lockedLastData.active.filter fun e => e.borrowOk }
          oneAuthSrc).active) ∧
      ((∀ e ∈ lockedLastData.active, e.borrowOk = false) →
        ∀ ne ∈ (calcNotifications lockedLastData oneAuthSrc).active,
          ne.remember = false) :=
  c7_borrow_skip lockedLastData oneAuthSrc (by decide)

/-- C1 (counterexample): the previous pass's list contains a
`RelayAuthenticationRequest` entry of identity `(a, r)` with
`remember = true`, the new snapshot contains an item of the same identity and
the fingerprint changed, yet the emitted Notification has `remember = false`:
the scan copied from the later matching entry (`remember = false`) of the
same identity, overwriting the copy from the `remember = true` one. -/
theorem c1_counterexample :
    (∃ e ∈ twoMatchData.active, e.item = authItemAR ∧ e.remember = true) ∧
      (∃ p ∈ oneAuthSrc.items, p.1 = authItemAR) ∧
      twoMatchData.last_pending_hash ≠ oneAuthSrc.hash ∧
      (calcNotifications twoMatchData oneAuthSrc).active.map
        NotificationEntry.remember = [false] := by
  decide

/-- C1 (amended): for every reconciliation pass that runs, if the new
snapshot's i-th item is a keyed variant (`RelayAuthenticationRequest`
matched on account and relay, `RelayConnectionRequest` on relay alone) and
the last entry of the previous pass's list that is inspectable (its borrow
succeeds) and identity-matches it has `remember = true`, then the
Notification emitted for that item has `remember = true`. -/
theorem c1_remember_preserved (d : NotificationData) (s : PendingSource)
    (i : Nat) (item : PendingItem) (t : Nat) (e : NotificationEntry)
    (hrun : d.last_pending_hash ≠ s.hash)
    (hkey : isKeyed item = true)
    (hitem : s.items[i]? = some (item, t))
    (hlast : (d.active.filter fun x => x.borrowOk && identityMatches item x.item).getLast?
        = some e)
    (hrem : e.remember = true) :
    ∃ ne, (calcNotifications d s).active[i]? = some ne ∧ ne.remember = true := by
  rw [calcNotifications_run d s hrun]
  refine ⟨buildNotification d.active item t, ?_, ?_⟩
  · show (List.map (fun p => buildNotification d.active p.1 p.2) s.items)[i]? = _
    rw [List.getElem?_map, hitem, Option.map_some']
  · rw [buildNotification_keyed d.active item t hkey, hlast]
    exact hrem

theorem c1_witness :
    ∃ ne, (calcNotifications
        { active := [{ item := authItemAR, time := 1, remember := true, borrowOk := true }]
          last_pending_hash := 1
          num_notif_relays := 1
          num_notif_pending := 0
          filter := NotificationFilter.All } oneAuthSrc).active[0]? = some ne ∧
      ne.remember = true :=
  c1_remember_preserved
    { active := [{ item := authItemAR, time := 1, remember := true, borrowOk := true }]
      last_pending_hash := 1
      num_notif_relays := 1
      num_notif_pending := 0
      filter := NotificationFilter.All } oneAuthSrc 0 authItemAR 3
    { item := authItemAR, time := 1, remember := true, borrowOk := true }
    (by decide) rfl rfl (by decide) rfl

/-- C9 (counterexample): the previous pass's list holds two matching
`RelayAuthenticationRequest` entries; the last one (`remember = false`) is
locked, so its borrow fails and the scan skips it: the emitted `remember` is
true, the value of the earlier match, not that of the last matching prior
entry. -/
theorem c9_counterexample :
    ((lockedLastData.active.filter fun x =>
          identityMatches authItemAR x.item).getLast?).map
        NotificationEntry.remember = some false ∧
      (calcNotifications lockedLastData oneAuthSrc).active.map
        NotificationEntry.remember = [true] := by
  decide

/-- C9 (amended): the scan iterates over the entire previous-pass list
without stopping at the first match, so for every keyed snapshot item the
emitted entry's `remember` equals that of the last identity-matching prior
entry among those whose borrow succeeds (overwriting values copied from
earlier matches), or false when there is none. -/
theorem c9_last_match_wins (d : NotificationData) (s : PendingSource)
    (i : Nat) (item : PendingItem) (t : Nat)
    (hrun : d.last_pending_hash ≠ s.hash)
    (hkey : isKeyed item = true)
    (hitem : s.items[i]? = some (item, t)) :
    (calcNotifications d s).active[i]? =
      some { item := item, time := t, borrowOk := true,
             remember :=
               (((d.active.filter fun x =>
                   x.borrowOk && identityMatches item x.item).getLast?).map
                 NotificationEntry.remember).getD false } := by
  rw [calcNotifications_run d s hrun]
  show (List.map (fun p => buildNotification d.active p.1 p.2) s.items)[i]? = _
  rw [List.getElem?_map, hitem, Option.map_some',
    buildNotification_keyed d.active item t hkey]

theorem c9_witness :
    (calcNotifications twoMatchData oneAuthSrc).active[0]? =
      some { item := authItemAR, time := 3, remember := false, borrowOk := true } := by
  have h := c9_last_match_wins twoMatchData oneAuthSrc 0 authItemAR 3 (by decide) rfl rfl
  rw [h]
  decide
